import Mathlib

/-!
Verification of the repository security scanning pipeline
(`code/scanner/scanner.py`): risk classification and aggregation,
skill-bundle discovery, report persistence, download branch fallback,
extraction staging, and the run statistics.

The Python code is shallowly embedded: each Lean definition mirrors one
source function; filesystem and subprocess effects are made explicit via
environment records and event traces.
-/

namespace AgentSkillsScanner

/-! ## Risk levels (`RepoSecurityScanner.RISK_PRIORITY`) -/

inductive RiskLevel where
  | CRITICAL
  | HIGH
  | MEDIUM
  | LOW
  | SAFE
  | UNKNOWN
  deriving DecidableEq, Repr

open RiskLevel

/-- `RISK_PRIORITY` class attribute: priority integer per level. -/
def RISK_PRIORITY : RiskLevel → Nat
  | .CRITICAL => 5
  | .HIGH => 4
  | .MEDIUM => 3
  | .LOW => 2
  | .SAFE => 1
  | .UNKNOWN => 0

/-- `self.risk_dirs`: the five risk-tier directories, in dict insertion
order (`critical`, `high`, `medium`, `low`, `safe`); values are the
directory names under the workspace (`PathConfig.get_risk_dir`). -/
def riskDirs : List (RiskLevel × String) :=
  [(.CRITICAL, "critical"), (.HIGH, "high"), (.MEDIUM, "medium"),
   (.LOW, "low"), (.SAFE, "safe")]

/-- Dictionary lookup `self.risk_dirs[level]` (`None` when absent:
`UNKNOWN` has no entry). -/
def riskDirLookup (r : RiskLevel) : Option String :=
  (riskDirs.find? (fun p => p.1 = r)).map Prod.snd

/-- `self.risk_dirs.get(repo_risk, self.risk_dirs['LOW'])` in
`scan_repo`: the partition a report is saved into, defaulting to the
`LOW` tier when the verdict has no partition of its own. -/
def targetDir (r : RiskLevel) : String :=
  (riskDirLookup r).getD ((riskDirLookup .LOW).getD "")

/-! ## Thresholds and classification (`calculate_repo_risk`) -/

/-- `self.thresholds` (config keys `scanner.thresholds.*`); scores are
modelled as integers. -/
structure Thresholds where
  critical : Int
  high : Int
  medium : Int
  low : Int
  deriving DecidableEq, Repr

/-- Default thresholds from `RepoSecurityScanner.__init__`. -/
def defaultThresholds : Thresholds := ⟨8, 6, 4, 2⟩

/-- The descending threshold ladder inside `calculate_repo_risk`
(lines 350–359). -/
def classifyScore (th : Thresholds) (score : Int) : RiskLevel :=
  if score ≥ th.critical then .CRITICAL
  else if score ≥ th.high then .HIGH
  else if score ≥ th.medium then .MEDIUM
  else if score ≥ th.low then .LOW
  else .SAFE

/-- A per-skill analyzer report (`skill_security_scan` JSON output):
`risk_score`, `findings`, `total_files`.  Findings are opaque items;
only their identity and count matter to the pipeline. -/
structure SkillReport where
  risk_score : Int
  findings : List String
  total_files : Nat
  deriving DecidableEq, Repr

/-- The `risk_counts` dict `{risk: 0 for risk in RISK_PRIORITY}`:
an occurrence counter per level. -/
structure RiskCounts where
  critical : Nat
  high : Nat
  medium : Nat
  low : Nat
  safe : Nat
  unknown : Nat
  deriving DecidableEq, Repr

def RiskCounts.zero : RiskCounts := ⟨0, 0, 0, 0, 0, 0⟩

def RiskCounts.get (c : RiskCounts) : RiskLevel → Nat
  | .CRITICAL => c.critical
  | .HIGH => c.high
  | .MEDIUM => c.medium
  | .LOW => c.low
  | .SAFE => c.safe
  | .UNKNOWN => c.unknown

/-- `risk_counts[risk] += 1`. -/
def RiskCounts.inc (c : RiskCounts) : RiskLevel → RiskCounts
  | .CRITICAL => { c with critical := c.critical + 1 }
  | .HIGH => { c with high := c.high + 1 }
  | .MEDIUM => { c with medium := c.medium + 1 }
  | .LOW => { c with low := c.low + 1 }
  | .SAFE => { c with safe := c.safe + 1 }
  | .UNKNOWN => { c with unknown := c.unknown + 1 }

/-- The second component returned by `calculate_repo_risk`: either the
degenerate `{'reason': ...}` dict or the populated summary dict. -/
inductive Summary where
  | noSkills (reason : String)
  | stats (risk_counts : RiskCounts) (total_skills : Nat) (total_issues : Nat)
  deriving DecidableEq, Repr

/-- Iteration order of `risk_counts.items()` (dict insertion order,
which is the order of the `RISK_PRIORITY` keys). -/
def priorityOrder : List RiskLevel :=
  [.CRITICAL, .HIGH, .MEDIUM, .LOW, .SAFE, .UNKNOWN]

/-- The "find highest priority risk" loop of `calculate_repo_risk`
(lines 366–375): start from `(0, UNKNOWN)` and take any level whose
count is positive and whose priority strictly improves the maximum. -/
def selectVerdict (counts : RiskCounts) : RiskLevel :=
  (priorityOrder.foldl
    (fun acc l =>
      if counts.get l > 0 ∧ RISK_PRIORITY l > acc.1 then (RISK_PRIORITY l, l)
      else acc)
    (0, RiskLevel.UNKNOWN)).2

/-- One iteration of the `for report in skill_reports` loop: classify
the report's score, bump that level's count, and add the findings
count.  (The source's `if not report: continue` guard skips falsy
entries; a parsed `SkillReport` record is never falsy, so the guard is
vacuous here — `scan_repo` only collects non-`None` reports.) -/
def aggStep (th : Thresholds) (acc : RiskCounts × Nat) (r : SkillReport) :
    RiskCounts × Nat :=
  (acc.1.inc (classifyScore th r.risk_score), acc.2 + r.findings.length)

/-- `RepoSecurityScanner.calculate_repo_risk` (lines 336–383). -/
def calculateRepoRisk (th : Thresholds) (reports : List SkillReport) :
    RiskLevel × Summary :=
  if reports.isEmpty then (.UNKNOWN, .noSkills "No skills scanned")
  else
    let folded := reports.foldl (aggStep th) (RiskCounts.zero, 0)
    (selectVerdict folded.1, .stats folded.1 reports.length folded.2)

/-! ## Skill-bundle discovery (`find_skill_dirs`, `_is_skill_dir`)

The extracted repository is modelled by its recursive listing, the view
`Path.rglob('*')` produces: every strict descendant of the repository
root, as a path (list of name segments relative to the root) tagged as
directory or plain file.  The root itself is not part of the listing,
exactly as `rglob` never yields the directory it is called on. -/

/-- One entry of the recursive listing of an extracted repository. -/
structure FsNode where
  path : List String
  isDir : Bool
  deriving DecidableEq, Repr

/-- The indicator-file list of `_is_skill_dir`. -/
def indicators : List String :=
  ["SKILL.md", "skill.json", "api.json", "tool.json"]

/-- `(path / f).exists()`: some entry (file or directory) lives at `p`. -/
def pathExists (fs : List FsNode) (p : List String) : Bool :=
  fs.any (fun n => n.path = p)

/-- `RepoSecurityScanner._is_skill_dir` at the directory `p`: some
indicator name exists directly inside it. -/
def isSkillDirAt (fs : List FsNode) (p : List String) : Bool :=
  indicators.any (fun f => pathExists fs (p ++ [f]))

/-- `RepoSecurityScanner.find_skill_dirs`: iterate `rglob('*')` and keep
the items that are directories and pass `_is_skill_dir`. -/
def findSkillDirs (fs : List FsNode) : List (List String) :=
  (fs.filter (fun n => n.isDir ∧ isSkillDirAt fs n.path)).map (·.path)

/-! ## Report generation (`_generate_report`) -/

/-- The persisted repository report.  `scan_timestamp` (wall-clock time)
is the one source field not modelled. -/
structure RepoReport where
  repo_id : String
  repo_name : String
  repo_path : String
  risk_level : RiskLevel
  total_skills : Nat
  scanned_skills : Nat
  failed_skills : Nat
  total_files_scanned : Nat
  risk_summary : Summary
  skills_reports : List SkillReport
  all_issues : List String
  deriving DecidableEq, Repr

/-- `RepoSecurityScanner._generate_report` (lines 446–475).  The
`if not skill_report: continue` guard is vacuous for parsed records,
as in `calculate_repo_risk`. -/
def generateReport (repoId repoPath : String) (riskLevel : RiskLevel)
    (riskSummary : Summary) (skillReports : List SkillReport) : RepoReport :=
  let allIssues := skillReports.foldl (fun acc r => acc ++ r.findings) []
  let totalFiles := skillReports.foldl (fun acc r => acc + r.total_files) 0
  { repo_id := repoId
    repo_name := repoId
    repo_path := repoPath
    risk_level := riskLevel
    total_skills := skillReports.length
    scanned_skills := skillReports.length
    failed_skills := 0
    total_files_scanned := totalFiles
    risk_summary := riskSummary
    skills_reports := skillReports
    all_issues := allIssues }

/-! ## Filesystem event traces

Effects of the scanner on shared storage, recorded in program order:
data written at a path, a rename/move, a recursive removal, and an
analyzer invocation on a bundle. -/

inductive Ev where
  | write (path : String)
  | move (src dst : String)
  | remove (path : String)
  | analyze (bundle : List String)
  deriving DecidableEq, Repr

/-- `self.paths.workspace_dir / f"temp_extract_{repo_id}"`. -/
def tempDir (repoId : String) : String :=
  "workspace/temp_extract_" ++ repoId

/-- `self.repo_dir / repo_id` (`workspace/repo`). -/
def repoDir (repoId : String) : String :=
  "workspace/repo/" ++ repoId

/-- `risk_dir / f"{repo_id}_report.json"` for tier directory `tier`
(`PathConfig.get_risk_dir` puts tiers directly under the workspace). -/
def reportPath (tier repoId : String) : String :=
  "workspace/" ++ tier ++ "/" ++ repoId ++ "_report.json"

/-! ## Extraction (`extract_repo`) -/

/-- Outcome of the zip-extraction attempt, as seen by `extract_repo`:
the target directory already exists non-empty (idempotent reuse), or
`extractall` succeeds leaving the given top-level entry names in the
staging directory, or `ZipFile`/`extractall` raises. -/
inductive ExtractOutcome where
  | cached
  | fresh (entries : List String)
  | corrupt
  deriving DecidableEq, Repr

structure ExtractResult where
  events : List Ev
  result : Option String
  scannedIncr : Nat
  deriving DecidableEq, Repr

/-- `RepoSecurityScanner.extract_repo` (lines 242–275).  On the fresh
path it unpacks into the private staging directory, normalizes a single
top-level entry, moves the root into place, removes the staging
directory, and bumps `scan_stats['scanned']`; empty or corrupt archives
remove the staging directory and yield `None`. -/
def extractRepo (repoId : String) (out : ExtractOutcome) : ExtractResult :=
  match out with
  | .cached => ⟨[], some (repoDir repoId), 0⟩
  | .corrupt =>
      ⟨[.write (tempDir repoId), .remove (tempDir repoId)], none, 0⟩
  | .fresh [] =>
      ⟨[.write (tempDir repoId), .remove (tempDir repoId)], none, 0⟩
  | .fresh [single] =>
      ⟨[.write (tempDir repoId),
        .move (tempDir repoId ++ "/" ++ single) (repoDir repoId),
        .remove (tempDir repoId)],
       some (repoDir repoId), 1⟩
  | .fresh _ =>
      ⟨[.write (tempDir repoId),
        .move (tempDir repoId) (repoDir repoId),
        .remove (tempDir repoId)],
       some (repoDir repoId), 1⟩

/-! ## Per-repository scan (`scan_repo`) -/

/-- The environment one `scan_repo` call observes: for each of the five
tier directories, whether `{repo_id}_report.json` exists there and, if
so, the `risk_level` it records (`none` inside means the file is
unreadable or lacks the field, which the source maps to `UNKNOWN`);
the extraction outcome; the extracted repository's listing; and the
per-bundle analyzer outcome (`None` models non-zero exit, timeout or
unparseable output in `scan_skill`). -/
structure ScanEnv where
  existing : RiskLevel → Option (Option RiskLevel)
  extract : ExtractOutcome
  listing : List FsNode
  analyze : List String → Option SkillReport

/-- Iteration order of `self.risk_dirs.values()`. -/
def tierList : List RiskLevel := [.CRITICAL, .HIGH, .MEDIUM, .LOW, .SAFE]

/-- The resume loop of `scan_repo` (lines 396–405): the first tier whose
report file exists, together with its parsed risk level. -/
def firstExisting (env : ScanEnv) : Option (Option RiskLevel) :=
  tierList.findSome? (fun t => env.existing t)

structure ScanResult where
  status : String
  risk : RiskLevel
  skillCount : Nat
  events : List Ev
  savedReport : Option RepoReport
  scannedIncr : Nat
  deriving Repr

/-- `RepoSecurityScanner.scan_repo` (lines 385–444). -/
def scanRepo (th : Thresholds) (repoId : String) (env : ScanEnv) : ScanResult :=
  match firstExisting env with
  | some parsed =>
      { status := "skipped", risk := parsed.getD .UNKNOWN, skillCount := 0,
        events := [], savedReport := none, scannedIncr := 0 }
  | none =>
    let ex := extractRepo repoId env.extract
    match ex.result with
    | none =>
        { status := "failed", risk := .UNKNOWN, skillCount := 0,
          events := ex.events, savedReport := none,
          scannedIncr := ex.scannedIncr }
    | some repoPath =>
      let skillDirs := findSkillDirs env.listing
      if skillDirs.isEmpty then
        { status := "skipped", risk := .UNKNOWN, skillCount := 0,
          events := ex.events ++ [.remove repoPath], savedReport := none,
          scannedIncr := ex.scannedIncr }
      else
        let reports := skillDirs.filterMap env.analyze
        let rs := calculateRepoRisk th reports
        let rep := generateReport repoId repoPath rs.1 rs.2 reports
        { status := "scanned", risk := rs.1, skillCount := skillDirs.length,
          events := ex.events ++ skillDirs.map Ev.analyze
                    ++ [.write (reportPath (targetDir rs.1) repoId)],
          savedReport := some rep,
          scannedIncr := ex.scannedIncr }

/-! ## Run statistics (`scan_all`) -/

/-- `self.scan_stats`. -/
structure ScanStats where
  total : Nat
  scanned : Nat
  failed : Nat
  skipped : Nat
  by_risk : RiskCounts
  deriving DecidableEq, Repr

/-- The result-consuming branch of `scan_all` (lines 499–515) for one
completed repository, plus the `scan_stats['scanned']` increment that
`extract_repo` performed while the repository was being processed.
(In the source the `risk_level in self.RISK_PRIORITY` guard on the
skipped branch always holds for the six modelled levels.) -/
def recordResult (stats : ScanStats) (res : ScanResult) : ScanStats :=
  let stats := { stats with scanned := stats.scanned + res.scannedIncr }
  if res.status = "scanned" then
    { stats with by_risk := stats.by_risk.inc res.risk }
  else if res.status = "skipped" then
    { stats with by_risk := stats.by_risk.inc res.risk }
  else
    { stats with failed := stats.failed + 1 }

/-- `RepoSecurityScanner.scan_all` (lines 477–520) over an already
ordered and sliced candidate list; batching and the worker pool only
affect completion order, and `recordResult` is folded in some
completion order (the claims proved below are order-insensitive). -/
def scanAll (th : Thresholds) (repos : List (String × ScanEnv)) : ScanStats :=
  let init : ScanStats :=
    { total := repos.length, scanned := 0, failed := 0, skipped := 0,
      by_risk := RiskCounts.zero }
  repos.foldl (fun stats r => recordResult stats (scanRepo th r.1 r.2)) init

/-! ## Download with branch fallback (`RepoDownloader.download_repo`) -/

/-- One entry of the repo mapping (`repo_info`).  Optional fields model
`dict.get`. -/
structure RepoInfo where
  repo_id : String
  repo : String
  branch : Option String
  download_url : Option String
  id_prefix : Option String
  deriving DecidableEq, Repr

/-- Outcome of one `_download_with_curl` invocation, as observable by
`download_repo`: the curl process exited 0 leaving a file of the given
size; or it exited non-zero (`fileLeft`: a partial file remains at the
zip path); or an exception (e.g. `subprocess` timeout) was raised. -/
inductive CurlOutcome where
  | done (size : Nat)
  | procFail (fileLeft : Bool)
  | exc (fileLeft : Bool)
  deriving DecidableEq, Repr

/-- Environment of one `download_repo` call: the pre-existing state of
the zip path and the outcome of the k-th curl invocation. -/
structure DlEnv where
  zipExists : Bool
  zipSize : Nat
  curl : Nat → CurlOutcome

inductive DlEvent where
  | curl (url : String)
  | unlink
  deriving DecidableEq, Repr

structure DlResult where
  success : Bool
  repoId : String
  message : String
  events : List DlEvent
  deriving DecidableEq, Repr

/-- `'master' if primary_branch == 'main' else 'main'`. -/
def fallbackBranch (primary : String) : String :=
  if primary = "main" then "master" else "main"

/-- The URL given to curl on attempt 0: `str(download_url)`, which is
the literal text `"None"` when no explicit `download_url` is supplied
(attempt 0 never builds a URL from the branch). -/
def attempt1Url (info : RepoInfo) : String :=
  match info.download_url with
  | some u => u
  | none => "None"

/-- The rewritten URL of attempt 1:
`https://github.com/{repo}/archive/{fallback_branch}.zip`. -/
def attempt2Url (info : RepoInfo) : String :=
  "https://github.com/" ++ info.repo ++ "/archive/"
    ++ fallbackBranch (info.branch.getD "main") ++ ".zip"

/-- The success log/result text `Downloaded (...) [{branch_display}]`;
the megabyte figure (a float format) is elided, the branch display is
kept verbatim. -/
def successMsg (branchDisplay : String) : String :=
  "Downloaded [" ++ branchDisplay ++ "]"

/-- Attempt 1 of the `for attempt in range(2)` loop (the fallback
attempt), entered with the events accumulated by attempt 0.  A zero
byte file or a non-zero exit returns the branch-specific failure; an
exception falls out of the loop into the generic failure (the
`attempt == 0` guard suppresses the unlink here). -/
def downloadSecond (env : DlEnv) (info : RepoInfo) (evs : List DlEvent) :
    DlResult :=
  let disp := fallbackBranch (info.branch.getD "main") ++ " (fallback)"
  let evs := evs ++ [.curl (attempt2Url info)]
  match env.curl 1 with
  | .done size =>
      if size > 0 then
        ⟨true, info.repo_id, successMsg disp, evs⟩
      else
        ⟨false, info.repo_id, "Download failed (branch: " ++ disp ++ ")", evs⟩
  | .procFail _ =>
      ⟨false, info.repo_id, "Download failed (branch: " ++ disp ++ ")", evs⟩
  | .exc _ =>
      ⟨false, info.repo_id, "Download failed", evs⟩

/-- `RepoDownloader.download_repo` (lines 51–110).  `_download_with_curl`
reports success exactly when curl exits 0 and the file is non-empty;
after a failed attempt 0 the partial file (if any) is unlinked and
attempt 1 retries the rewritten URL. -/
def downloadRepo (env : DlEnv) (info : RepoInfo) : DlResult :=
  let primary := info.branch.getD "main"
  if env.zipExists ∧ env.zipSize > 0 then
    ⟨true, info.repo_id, "Already exists", []⟩
  else
    let ev0 : List DlEvent := [.curl (attempt1Url info)]
    match env.curl 0 with
    | .done size =>
        if size > 0 then
          ⟨true, info.repo_id, successMsg primary, ev0⟩
        else
          downloadSecond env info (ev0 ++ [.unlink])
    | .procFail fileLeft =>
        downloadSecond env info (ev0 ++ if fileLeft then [.unlink] else [])
    | .exc fileLeft =>
        downloadSecond env info (ev0 ++ if fileLeft then [.unlink] else [])

/-- Number of curl invocations in a trace. -/
def countCurls (evs : List DlEvent) : Nat :=
  (evs.filter (fun e => match e with | .curl _ => true | _ => false)).length

/-- Attempt 0 did not produce a valid archive: curl failed, raised, or
left a zero-byte file. -/
def firstFails (env : DlEnv) : Prop :=
  match env.curl 0 with
  | .done s => s = 0
  | _ => True

/-- A file is present at the zip path after the failed attempt 0. -/
def fileAfterFirst (env : DlEnv) : Bool :=
  match env.curl 0 with
  | .done _ => true
  | .procFail fl => fl
  | .exc fl => fl

/-- Attempt 1 produced a valid (non-empty) archive. -/
def secondSucceeds (env : DlEnv) : Prop :=
  match env.curl 1 with
  | .done s => s > 0
  | _ => False

instance (env : DlEnv) : Decidable (firstFails env) := by
  unfold firstFails; exact match env.curl 0 with
    | .done s => inferInstanceAs (Decidable (s = 0))
    | .procFail _ => inferInstanceAs (Decidable True)
    | .exc _ => inferInstanceAs (Decidable True)

instance (env : DlEnv) : Decidable (secondSucceeds env) := by
  unfold secondSucceeds; exact match env.curl 1 with
    | .done s => inferInstanceAs (Decidable (s > 0))
    | .procFail _ => inferInstanceAs (Decidable False)
    | .exc _ => inferInstanceAs (Decidable False)

/-! ## Specification-side views of aggregation

Declarative counterparts, written from the spec's wording, to compare
with the operational fold of `calculate_repo_risk`. -/

/-- Number of reports classified at level `l`. -/
def specCount (th : Thresholds) (reports : List SkillReport) (l : RiskLevel) : Nat :=
  (reports.filter (fun r => classifyScore th r.risk_score = l)).length

/-- The per-level occurrence counts, built declaratively. -/
def specCounts (th : Thresholds) (reports : List SkillReport) : RiskCounts :=
  ⟨specCount th reports .CRITICAL, specCount th reports .HIGH,
   specCount th reports .MEDIUM, specCount th reports .LOW,
   specCount th reports .SAFE, specCount th reports .UNKNOWN⟩

/-- Sum of the lengths of all findings lists. -/
def totalFindings (reports : List SkillReport) : Nat :=
  (reports.map (fun r => r.findings.length)).sum

lemma RiskCounts.zero_get (l : RiskLevel) : RiskCounts.zero.get l = 0 := by
  cases l <;> rfl

lemma RiskCounts.inc_get (c : RiskCounts) (l' l : RiskLevel) :
    (c.inc l').get l = c.get l + (if l = l' then 1 else 0) := by
  cases l' <;> cases l <;> simp [RiskCounts.inc, RiskCounts.get]

lemma RiskCounts.ext_of_get {a b : RiskCounts} (h : ∀ l, a.get l = b.get l) :
    a = b := by
  cases a; cases b
  have h1 := h .CRITICAL; have h2 := h .HIGH; have h3 := h .MEDIUM
  have h4 := h .LOW; have h5 := h .SAFE; have h6 := h .UNKNOWN
  simp [RiskCounts.get] at h1 h2 h3 h4 h5 h6
  simp [h1, h2, h3, h4, h5, h6]

lemma specCounts_get (th : Thresholds) (reports : List SkillReport)
    (l : RiskLevel) : (specCounts th reports).get l = specCount th reports l := by
  cases l <;> rfl

lemma specCount_cons (th : Thresholds) (r : SkillReport)
    (rs : List SkillReport) (l : RiskLevel) :
    specCount th (r :: rs) l
      = (if classifyScore th r.risk_score = l then 1 else 0) + specCount th rs l := by
  simp only [specCount, List.filter_cons]
  split
  · simp_all
    omega
  · simp_all

lemma classifyScore_ne_unknown (th : Thresholds) (s : Int) :
    classifyScore th s ≠ .UNKNOWN := by
  unfold classifyScore; split_ifs <;> simp

/-- The aggregation fold computes exactly the declarative counts and the
declarative findings total. -/
lemma aggFold_spec (th : Thresholds) :
    ∀ (reports : List SkillReport) (c : RiskCounts) (n : Nat),
      (∀ l, (reports.foldl (aggStep th) (c, n)).1.get l
          = c.get l + specCount th reports l)
      ∧ (reports.foldl (aggStep th) (c, n)).2 = n + totalFindings reports := by
  intro reports
  induction reports with
  | nil => intro c n; simp [specCount, totalFindings]
  | cons r rs ih =>
    intro c n
    constructor
    · intro l
      have h := (ih (c.inc (classifyScore th r.risk_score))
                    (n + r.findings.length)).1 l
      simp only [List.foldl_cons, aggStep] at h ⊢
      rw [h, RiskCounts.inc_get, specCount_cons]
      by_cases hc : classifyScore th r.risk_score = l
      · simp [hc]; omega
      · have hc' : ¬(l = classifyScore th r.risk_score) := fun he => hc he.symm
        simp [hc, hc']
    · have h := (ih (c.inc (classifyScore th r.risk_score))
                    (n + r.findings.length)).2
      simp only [List.foldl_cons, aggStep] at h ⊢
      rw [h]
      simp [totalFindings]
      omega

/-- Every report is classified at exactly one of the five named levels:
the five declarative counts add up to the number of reports. -/
lemma specCount_sum (th : Thresholds) (reports : List SkillReport) :
    specCount th reports .CRITICAL + specCount th reports .HIGH
      + specCount th reports .MEDIUM + specCount th reports .LOW
      + specCount th reports .SAFE = reports.length := by
  induction reports with
  | nil => simp [specCount]
  | cons r rs ih =>
    have hne := classifyScore_ne_unknown th r.risk_score
    rw [specCount_cons, specCount_cons, specCount_cons, specCount_cons,
        specCount_cons]
    cases hc : classifyScore th r.risk_score <;> simp [hc] at hne ⊢ <;> omega

/-- Unfolding the verdict-selection fold: since the iteration order is
by strictly descending priority starting from maximum `0`, the loop
returns the first of the five named levels with a positive count
(`UNKNOWN`, at priority `0`, can never strictly improve). -/
lemma selectVerdict_eq (c : RiskCounts) :
    selectVerdict c =
      if c.critical > 0 then .CRITICAL
      else if c.high > 0 then .HIGH
      else if c.medium > 0 then .MEDIUM
      else if c.low > 0 then .LOW
      else if c.safe > 0 then .SAFE
      else .UNKNOWN := by
  by_cases h1 : c.critical = 0 <;>
    by_cases h2 : c.high = 0 <;>
      by_cases h3 : c.medium = 0 <;>
        by_cases h4 : c.low = 0 <;>
          by_cases h5 : c.safe = 0 <;>
            simp [selectVerdict, priorityOrder, RISK_PRIORITY, RiskCounts.get,
                  h1, h2, h3, h4, h5, Nat.pos_iff_ne_zero]

/-- The selected verdict dominates (in priority) every level that
occurred at least once. -/
lemma selectVerdict_max (c : RiskCounts) (l : RiskLevel)
    (hl : c.get l > 0) :
    RISK_PRIORITY l ≤ RISK_PRIORITY (selectVerdict c) := by
  rw [selectVerdict_eq]
  cases l <;>
    simp [RiskCounts.get, RISK_PRIORITY] at hl ⊢ <;>
    split_ifs <;> simp [RISK_PRIORITY]

/-- When one of the five named levels occurred, the verdict itself
occurred. -/
lemma selectVerdict_pos (c : RiskCounts)
    (h : c.critical + c.high + c.medium + c.low + c.safe > 0) :
    c.get (selectVerdict c) > 0 := by
  rw [selectVerdict_eq]
  split_ifs <;> simp [RiskCounts.get] <;> omega

/-- The verdict of a non-empty aggregation dominates, and occurs among,
the declarative per-level counts. -/
lemma calculateRepoRisk_nonempty (th : Thresholds) (reports : List SkillReport)
    (hne : reports ≠ []) :
    calculateRepoRisk th reports
      = (selectVerdict (specCounts th reports),
         .stats (specCounts th reports) reports.length (totalFindings reports)) := by
  have hcounts :
      (reports.foldl (aggStep th) (RiskCounts.zero, 0)).1 = specCounts th reports := by
    apply RiskCounts.ext_of_get
    intro l
    rw [(aggFold_spec th reports RiskCounts.zero 0).1 l, RiskCounts.zero_get,
        specCounts_get]
    omega
  have hissues :
      (reports.foldl (aggStep th) (RiskCounts.zero, 0)).2 = totalFindings reports := by
    rw [(aggFold_spec th reports RiskCounts.zero 0).2]
    omega
  unfold calculateRepoRisk
  rw [if_neg (by simpa [List.isEmpty_iff] using hne)]
  simp only [hcounts, hissues]

/-- C3: aggregation over a non-empty report list classifies each score,
counts occurrences per level, sums findings into `total_issues`, and the
verdict is the occurring level of strictly highest priority; the spec's
worked example (`thresholds {8,6,4,2}`, scores `[1,5,9]`) produces
per-bundle levels SAFE/MEDIUM/CRITICAL, verdict CRITICAL and
`risk_counts = {SAFE:1, MEDIUM:1, CRITICAL:1}`. -/
theorem claim_C3_aggregation (th : Thresholds) (reports : List SkillReport)
    (hne : reports ≠ []) :
    ((calculateRepoRisk th reports).2
        = .stats (specCounts th reports) reports.length (totalFindings reports)
      ∧ (specCounts th reports).get (calculateRepoRisk th reports).1 > 0
      ∧ (∀ l, (specCounts th reports).get l > 0 →
            RISK_PRIORITY l ≤ RISK_PRIORITY (calculateRepoRisk th reports).1))
    ∧ (classifyScore defaultThresholds 1 = .SAFE
        ∧ classifyScore defaultThresholds 5 = .MEDIUM
        ∧ classifyScore defaultThresholds 9 = .CRITICAL)
    ∧ calculateRepoRisk defaultThresholds
        [⟨1, [], 0⟩, ⟨5, [], 0⟩, ⟨9, [], 0⟩]
      = (.CRITICAL, .stats ⟨1, 0, 1, 0, 1, 0⟩ 3 0) := by
  refine ⟨⟨?_, ?_, ?_⟩, by decide, by decide⟩
  · rw [calculateRepoRisk_nonempty th reports hne]
  · rw [calculateRepoRisk_nonempty th reports hne]
    apply selectVerdict_pos
    have := specCount_sum th reports
    have hlen : reports.length > 0 := List.length_pos.mpr hne
    simp only [specCounts]
    omega
  · intro l hl
    rw [calculateRepoRisk_nonempty th reports hne]
    exact selectVerdict_max _ l hl

/-- Witness for C3 at a concrete non-empty report list. -/
theorem claim_C3_witness :
    ((calculateRepoRisk defaultThresholds [⟨7, ["a", "b"], 1⟩]).2
        = .stats (specCounts defaultThresholds [⟨7, ["a", "b"], 1⟩]) 1
            (totalFindings [⟨7, ["a", "b"], 1⟩]))
    ∧ calculateRepoRisk defaultThresholds
        [⟨1, [], 0⟩, ⟨5, [], 0⟩, ⟨9, [], 0⟩]
      = (.CRITICAL, .stats ⟨1, 0, 1, 0, 1, 0⟩ 3 0) := by
  have h := claim_C3_aggregation defaultThresholds [⟨7, ["a", "b"], 1⟩]
    (by decide)
  exact ⟨h.1.1, h.2.2⟩

/-- C4 counterexample: on the empty list the reason string is
`"No skills scanned"` (capital `N`), so the pair claimed by the spec,
with reason `"no skills scanned"`, is not what aggregation returns. -/
theorem claim_C4_counterexample :
    calculateRepoRisk defaultThresholds []
      ≠ (.UNKNOWN, .noSkills "no skills scanned") := by
  decide

/-- C4 (amended): aggregation over an empty report list returns exactly
`(UNKNOWN, {reason: "No skills scanned"})`, for every threshold
configuration. -/
theorem claim_C4_empty_aggregate (th : Thresholds) :
    calculateRepoRisk th [] = (.UNKNOWN, .noSkills "No skills scanned") := rfl

/-- C5: with thresholds fixed, the classification ladder is monotone —
a higher score never classifies to a lower-priority level. -/
theorem claim_C5_classify_monotone (th : Thresholds) (s1 s2 : Int)
    (h : s1 ≥ s2) :
    RISK_PRIORITY (classifyScore th s1) ≥ RISK_PRIORITY (classifyScore th s2) := by
  unfold classifyScore
  split_ifs <;> simp [RISK_PRIORITY] <;> omega

/-- Witness for C5 at concrete scores 7 ≥ 3 under the default
thresholds. -/
theorem claim_C5_witness :
    (7 : Int) ≥ 3
    ∧ RISK_PRIORITY (classifyScore defaultThresholds 7)
        ≥ RISK_PRIORITY (classifyScore defaultThresholds 3) :=
  ⟨by decide, claim_C5_classify_monotone defaultThresholds 7 3 (by decide)⟩

/-! ## Lemmas about `scan_repo` -/

/-- Extraction only ever installs the repository at its canonical
destination `repo_dir / repo_id`. -/
lemma extractRepo_result (rid : String) (out : ExtractOutcome) (p : String)
    (h : (extractRepo rid out).result = some p) : p = repoDir rid := by
  cases out with
  | cached => simpa [extractRepo] using h.symm
  | corrupt => simp [extractRepo] at h
  | fresh entries =>
    cases entries with
    | nil => simp [extractRepo] at h
    | cons a t =>
      cases t with
      | nil => simpa [extractRepo] using h.symm
      | cons b t' => simpa [extractRepo] using h.symm

/-- Characterization of a `scan_repo` call that returns `'scanned'`:
no prior report existed, bundles were found, and the result is the full
analyze/aggregate/save record. -/
lemma scanRepo_scanned (th : Thresholds) (rid : String) (env : ScanEnv)
    (h : (scanRepo th rid env).status = "scanned") :
    firstExisting env = none
    ∧ ¬(findSkillDirs env.listing).isEmpty
    ∧ scanRepo th rid env =
        { status := "scanned"
          risk := (calculateRepoRisk th
            ((findSkillDirs env.listing).filterMap env.analyze)).1
          skillCount := (findSkillDirs env.listing).length
          events := (extractRepo rid env.extract).events
                    ++ (findSkillDirs env.listing).map Ev.analyze
                    ++ [.write (reportPath (targetDir
                        (calculateRepoRisk th
                          ((findSkillDirs env.listing).filterMap env.analyze)).1)
                        rid)]
          savedReport := some (generateReport rid (repoDir rid)
            (calculateRepoRisk th
              ((findSkillDirs env.listing).filterMap env.analyze)).1
            (calculateRepoRisk th
              ((findSkillDirs env.listing).filterMap env.analyze)).2
            ((findSkillDirs env.listing).filterMap env.analyze))
          scannedIncr := (extractRepo rid env.extract).scannedIncr } := by
  cases hfe : firstExisting env with
  | some parsed =>
    exfalso
    simp [scanRepo, hfe] at h
  | none =>
    cases hex : (extractRepo rid env.extract).result with
    | none =>
      exfalso
      simp [scanRepo, hfe, hex] at h
    | some p =>
      have hp : p = repoDir rid := extractRepo_result rid env.extract p hex
      by_cases hsd : (findSkillDirs env.listing).isEmpty = true
      · exfalso
        simp [scanRepo, hfe, hex, hsd] at h
      · have hsd' : (findSkillDirs env.listing).isEmpty = false := by
          simpa using hsd
        refine ⟨by simp [hfe], by simp [hsd'], ?_⟩
        simp [scanRepo, hfe, hex, hsd', hp]

/-- The save partition equals the matching tier directory for the five
named levels, and falls back to `low/` otherwise. -/
lemma targetDir_eq (l : RiskLevel) :
    targetDir l = (riskDirLookup l).getD "low" := by
  cases l <;> rfl

/-- An environment in which every bundle analysis fails: one discovered
bundle, analyzer returns no report, verdict `UNKNOWN`. -/
def envC1 : ScanEnv :=
  { existing := fun _ => none
    extract := .fresh ["pkg"]
    listing := [⟨["s1"], true⟩, ⟨["s1", "SKILL.md"], false⟩]
    analyze := fun _ => none }

/-- C1 counterexample: a scan whose aggregation verdict is `UNKNOWN`
(one bundle, analysis failed) saves a report whose `risk_level` is
`UNKNOWN` into the `low/` partition — yet `UNKNOWN` has no partition of
its own among the five risk tiers, so the chosen partition does not
correspond to the verdict. -/
theorem claim_C1_counterexample :
    (scanRepo defaultThresholds "r1" envC1).status = "scanned"
    ∧ (scanRepo defaultThresholds "r1" envC1).risk = .UNKNOWN
    ∧ Ev.write (reportPath "low" "r1") ∈ (scanRepo defaultThresholds "r1" envC1).events
    ∧ riskDirLookup .UNKNOWN = none := by
  decide

/-- C1 (amended): every saved report `{repo_id}_report.json` goes into
the partition matching its `risk_level` for the five tier levels, and
into `low/` when the verdict is `UNKNOWN` (the `dict.get` fallback). -/
theorem claim_C1_report_partition (th : Thresholds) (rid : String)
    (env : ScanEnv) (h : (scanRepo th rid env).status = "scanned") :
    ∃ rep, (scanRepo th rid env).savedReport = some rep
      ∧ rep.risk_level = (scanRepo th rid env).risk
      ∧ Ev.write (reportPath ((riskDirLookup (scanRepo th rid env).risk).getD "low") rid)
          ∈ (scanRepo th rid env).events := by
  obtain ⟨-, -, heq⟩ := scanRepo_scanned th rid env h
  rw [heq]
  refine ⟨_, rfl, rfl, ?_⟩
  rw [← targetDir_eq]
  simp

/-- Witness for C1 (amended) at the concrete environment `envC1`. -/
theorem claim_C1_witness :
    ∃ rep, (scanRepo defaultThresholds "r1" envC1).savedReport = some rep
      ∧ rep.risk_level = (scanRepo defaultThresholds "r1" envC1).risk
      ∧ Ev.write (reportPath
            ((riskDirLookup (scanRepo defaultThresholds "r1" envC1).risk).getD "low")
            "r1")
          ∈ (scanRepo defaultThresholds "r1" envC1).events :=
  claim_C1_report_partition defaultThresholds "r1" envC1 (by decide)

/-- C2: with exactly one report file present (in tier `t`, recording
level `L`), `scan_repo` returns `'skipped'` with the recorded level and
performs no extraction, no analysis, and no filesystem writes at all. -/
theorem claim_C2_resume (th : Thresholds) (rid : String) (env : ScanEnv)
    (t L : RiskLevel) (ht : t ∈ tierList)
    (hex : env.existing t = some (some L))
    (huniq : ∀ t', t' ≠ t → env.existing t' = none) :
    (scanRepo th rid env).status = "skipped"
    ∧ (scanRepo th rid env).risk = L
    ∧ (scanRepo th rid env).skillCount = 0
    ∧ (scanRepo th rid env).events = [] := by
  have hfe : firstExisting env = some (some L) := by
    fin_cases ht
    · simp [firstExisting, tierList, List.findSome?, hex]
    · simp [firstExisting, tierList, List.findSome?, hex,
            huniq .CRITICAL (by decide)]
    · simp [firstExisting, tierList, List.findSome?, hex,
            huniq .CRITICAL (by decide), huniq .HIGH (by decide)]
    · simp [firstExisting, tierList, List.findSome?, hex,
            huniq .CRITICAL (by decide), huniq .HIGH (by decide),
            huniq .MEDIUM (by decide)]
    · simp [firstExisting, tierList, List.findSome?, hex,
            huniq .CRITICAL (by decide), huniq .HIGH (by decide),
            huniq .MEDIUM (by decide), huniq .LOW (by decide)]
  simp [scanRepo, hfe]

/-- A repository whose report already sits under `high/`, recording
risk level `HIGH`. -/
def envC2 : ScanEnv :=
  { existing := fun t => if t = .HIGH then some (some .HIGH) else none
    extract := .cached
    listing := []
    analyze := fun _ => none }

/-- Witness for C2: the `high/` report makes the scan a no-op `skipped`
with level `HIGH`. -/
theorem claim_C2_witness :
    (scanRepo defaultThresholds "r2" envC2).status = "skipped"
    ∧ (scanRepo defaultThresholds "r2" envC2).risk = .HIGH
    ∧ (scanRepo defaultThresholds "r2" envC2).skillCount = 0
    ∧ (scanRepo defaultThresholds "r2" envC2).events = [] :=
  claim_C2_resume defaultThresholds "r2" envC2 .HIGH .HIGH (by decide)
    (by decide) (fun t' ht' => by simp [envC2, ht'])

/-- C10: whenever `scan_repo` saves a report, `total_skills` and
`scanned_skills` both equal the number of bundles whose analysis
produced a usable report, and `failed_skills` is the constant `0` —
bundles whose analysis failed are invisible in these counters. -/
theorem claim_C10_counters (th : Thresholds) (rid : String) (env : ScanEnv)
    (rep : RepoReport)
    (h : (scanRepo th rid env).savedReport = some rep) :
    rep.total_skills = ((findSkillDirs env.listing).filterMap env.analyze).length
    ∧ rep.scanned_skills = rep.total_skills
    ∧ rep.failed_skills = 0 := by
  cases hfe : firstExisting env with
  | some parsed => simp [scanRepo, hfe] at h
  | none =>
    cases hex : (extractRepo rid env.extract).result with
    | none => simp [scanRepo, hfe, hex] at h
    | some p =>
      by_cases hsd : (findSkillDirs env.listing).isEmpty = true
      · simp [scanRepo, hfe, hex, hsd] at h
      · have hsd' : (findSkillDirs env.listing).isEmpty = false := by
          simpa using hsd
        simp [scanRepo, hfe, hex, hsd'] at h
        rw [← h]
        simp [generateReport]

/-- Two discovered bundles, of which only the first analysis succeeds. -/
def envC10 : ScanEnv :=
  { existing := fun _ => none
    extract := .fresh ["pkg"]
    listing := [⟨["s1"], true⟩, ⟨["s1", "SKILL.md"], false⟩,
                ⟨["s2"], true⟩, ⟨["s2", "tool.json"], false⟩]
    analyze := fun p => if p = ["s1"] then some ⟨5, ["x"], 3⟩ else none }

/-- The report `envC10` produces: built from the single usable skill
report. -/
def repC10 : RepoReport :=
  generateReport "r10" (repoDir "r10")
    (calculateRepoRisk defaultThresholds [⟨5, ["x"], 3⟩]).1
    (calculateRepoRisk defaultThresholds [⟨5, ["x"], 3⟩]).2
    [⟨5, ["x"], 3⟩]

/-- Witness for C10: two bundles discovered, one analysis fails, and
the saved counters read `total_skills = scanned_skills = 1`,
`failed_skills = 0`. -/
theorem claim_C10_witness :
    (scanRepo defaultThresholds "r10" envC10).savedReport = some repC10
    ∧ repC10.total_skills
        = ((findSkillDirs envC10.listing).filterMap envC10.analyze).length
    ∧ repC10.scanned_skills = repC10.total_skills
    ∧ repC10.failed_skills = 0
    ∧ (findSkillDirs envC10.listing).length = 2
    ∧ ((findSkillDirs envC10.listing).filterMap envC10.analyze).length = 1 := by
  have h := claim_C10_counters defaultThresholds "r10" envC10 repC10 (by decide)
  exact ⟨by decide, h.1, h.2.1, h.2.2, by decide, by decide⟩

/-! ## C7: staging discipline -/

/-- `e` is a rename/move installing something at `dst`. -/
def movesTo (dst : String) : Ev → Bool
  | .move _ d => d = dst
  | _ => false

/-- A completed scan whose verdict is `SAFE` (score 0, no findings). -/
def envC7 : ScanEnv :=
  { existing := fun _ => none
    extract := .fresh ["pkg"]
    listing := [⟨["s"], true⟩, ⟨["s", "skill.json"], false⟩]
    analyze := fun _ => some ⟨0, [], 1⟩ }

/-- C7 counterexample: the report writer does not stage-then-move — the
canonical report path receives a direct data write and is never the
destination of any rename/move in the whole scan trace. -/
theorem claim_C7_counterexample :
    Ev.write (reportPath "safe" "r7") ∈ (scanRepo defaultThresholds "r7" envC7).events
    ∧ ((scanRepo defaultThresholds "r7" envC7).events.any
        (movesTo (reportPath "safe" "r7"))) = false := by
  decide

/-- Extraction's data writes all land inside the private staging
directory. -/
lemma extractRepo_write_staging (rid : String) (out : ExtractOutcome)
    (p : String) (hp : Ev.write p ∈ (extractRepo rid out).events) :
    p = tempDir rid := by
  cases out with
  | cached => simp [extractRepo] at hp
  | corrupt => simp [extractRepo] at hp; exact hp
  | fresh entries =>
    cases entries with
    | nil => simp [extractRepo] at hp; exact hp
    | cons a t =>
      cases t with
      | nil => simp [extractRepo] at hp; exact hp
      | cons b t' => simp [extractRepo] at hp; exact hp

/-- Extraction's moves only ever install at the canonical destination,
always out of the staging directory (either the staging directory
itself or its single normalized top-level entry). -/
lemma extractRepo_move_dst (rid : String) (out : ExtractOutcome)
    (s d : String) (hm : Ev.move s d ∈ (extractRepo rid out).events) :
    d = repoDir rid ∧ (s = tempDir rid ∨ ∃ n, s = tempDir rid ++ "/" ++ n) := by
  cases out with
  | cached => simp [extractRepo] at hm
  | corrupt => simp [extractRepo] at hm
  | fresh entries =>
    cases entries with
    | nil => simp [extractRepo] at hm
    | cons a t =>
      cases t with
      | nil =>
        simp [extractRepo] at hm
        exact ⟨hm.2, Or.inr ⟨a, hm.1⟩⟩
      | cons b t' =>
        simp [extractRepo] at hm
        exact ⟨hm.2, Or.inl hm.1⟩

/-- Whenever extraction did anything at all, it removed the staging
directory — on the success paths and on the failure paths alike. -/
lemma extractRepo_staging_removed (rid : String) (out : ExtractOutcome)
    (h : (extractRepo rid out).events ≠ []) :
    Ev.remove (tempDir rid) ∈ (extractRepo rid out).events := by
  cases out with
  | cached => simp [extractRepo] at h
  | corrupt => simp [extractRepo]
  | fresh entries =>
    cases entries with
    | nil => simp [extractRepo]
    | cons a t =>
      cases t with
      | nil => simp [extractRepo]
      | cons b t' => simp [extractRepo]

/-- C7 (amended): extraction follows the staging discipline — all its
data writes land in the private staging directory, the canonical
destination is only ever installed by a move out of staging, and the
staging directory is removed on success and failure alike — but the
report file is written directly at its canonical path: in a completed
scan the only data writes are staging-directory writes and the direct
write of the canonical report path, and no move ever targets anything
but the extraction destination. -/
theorem claim_C7_staging (rid : String) (out : ExtractOutcome)
    (th : Thresholds) (env : ScanEnv) :
    ((∀ p, Ev.write p ∈ (extractRepo rid out).events → p = tempDir rid)
      ∧ (∀ s d, Ev.move s d ∈ (extractRepo rid out).events →
          d = repoDir rid ∧ (s = tempDir rid ∨ ∃ n, s = tempDir rid ++ "/" ++ n))
      ∧ ((extractRepo rid out).events ≠ [] →
          Ev.remove (tempDir rid) ∈ (extractRepo rid out).events))
    ∧ ((scanRepo th rid env).status = "scanned" →
        Ev.write (reportPath (targetDir (scanRepo th rid env).risk) rid)
          ∈ (scanRepo th rid env).events
        ∧ (∀ p, Ev.write p ∈ (scanRepo th rid env).events →
            p = tempDir rid
            ∨ p = reportPath (targetDir (scanRepo th rid env).risk) rid)
        ∧ (∀ s d, Ev.move s d ∈ (scanRepo th rid env).events →
            d = repoDir rid)) := by
  refine ⟨⟨fun p hp => extractRepo_write_staging rid out p hp,
           fun s d hm => extractRepo_move_dst rid out s d hm,
           fun h => extractRepo_staging_removed rid out h⟩, fun h => ?_⟩
  obtain ⟨-, -, heq⟩ := scanRepo_scanned th rid env h
  rw [heq]
  refine ⟨by simp, ?_, ?_⟩
  · intro p hp
    simp only [List.mem_append, List.mem_singleton, List.mem_map] at hp
    rcases hp with (hp | hp) | hp
    · exact Or.inl (extractRepo_write_staging rid env.extract p hp)
    · obtain ⟨b, -, hb⟩ := hp
      exact absurd hb (by simp)
    · right
      simpa using hp
  · intro s d hm
    simp only [List.mem_append, List.mem_singleton, List.mem_map] at hm
    rcases hm with (hm | hm) | hm
    · exact (extractRepo_move_dst rid env.extract s d hm).1
    · obtain ⟨b, -, hb⟩ := hm
      exact absurd hb (by simp)
    · exact absurd hm (by simp)

/-- Witness for C7 (amended): the staging directory is removed in a
concrete failed extraction, and the concrete completed scan `envC7`
writes its report directly at the canonical path. -/
theorem claim_C7_witness :
    Ev.remove (tempDir "r7") ∈ (extractRepo "r7" .corrupt).events
    ∧ Ev.write (reportPath (targetDir (scanRepo defaultThresholds "r7" envC7).risk) "r7")
        ∈ (scanRepo defaultThresholds "r7" envC7).events :=
  ⟨(claim_C7_staging "r7" .corrupt defaultThresholds envC7).1.2.2 (by decide),
   ((claim_C7_staging "r7" .corrupt defaultThresholds envC7).2 (by decide)).1⟩

/-! ## C8: run statistics -/

/-- Repository `a`: its report already exists under `high/`. -/
def envC8a : ScanEnv :=
  { existing := fun t => if t = .HIGH then some (some .HIGH) else none
    extract := .cached
    listing := []
    analyze := fun _ => none }

/-- Repository `b`: freshly extracted, but it contains no skill
bundles. -/
def envC8b : ScanEnv :=
  { existing := fun _ => none
    extract := .fresh ["pkg"]
    listing := [⟨["README.md"], false⟩]
    analyze := fun _ => none }

/-- C8 evaluated at a failing input: a two-repository run in which one
repository is short-circuited by an existing report and the other by
zero discovered bundles.  The claim requires `skipped = 2` and
`scanned = 0`; the code leaves `skipped` at `0` (no statement ever
increments it) and reports `scanned = 1`, because `extract_repo`
increments `scanned` for every fresh extraction — here for a repository
whose outcome is `'skipped'`. -/
theorem claim_C8_stats_bug :
    (scanRepo defaultThresholds "a" envC8a).status = "skipped"
    ∧ (scanRepo defaultThresholds "b" envC8b).status = "skipped"
    ∧ scanAll defaultThresholds [("a", envC8a), ("b", envC8b)]
      = { total := 2, scanned := 1, failed := 0, skipped := 0,
          by_risk := ⟨0, 1, 0, 0, 0, 1⟩ } := by
  decide

/-! ## C9: skill-bundle discovery -/

/-- The set of qualifying directories, written from the spec's words:
a directory of the repository tree (an entry of the listing that is a
directory) that directly contains at least one indicator file. -/
def qualifiesSpec (fs : List FsNode) (p : List String) : Prop :=
  (∃ n ∈ fs, n.path = p ∧ n.isDir = true)
    ∧ ∃ f ∈ indicators, pathExists fs (p ++ [f]) = true

/-- The claim's set additionally regards the repository root itself
(path `[]`) as a directory in the repository tree. -/
def claimQualifies (fs : List FsNode) (p : List String) : Prop :=
  (p = [] ∨ ∃ n ∈ fs, n.path = p ∧ n.isDir = true)
    ∧ ∃ f ∈ indicators, pathExists fs (p ++ [f]) = true

/-- C9 counterexample: a repository whose root directly contains
`SKILL.md` — the root is a directory of the repository tree directly
containing an indicator file, yet discovery returns the empty list,
because `rglob('*')` never yields the directory it is called on. -/
theorem claim_C9_counterexample :
    claimQualifies [⟨["SKILL.md"], false⟩] []
    ∧ findSkillDirs [⟨["SKILL.md"], false⟩] = [] := by
  constructor
  · exact ⟨Or.inl rfl, "SKILL.md", by decide, by decide⟩
  · decide

/-- C9 (amended): discovery returns exactly the strict descendant
directories of the repository root that directly (non-recursively)
contain an indicator entry — the root itself is never returned, even
when it qualifies.  Parent and nested child directories qualify
independently. -/
theorem claim_C9_discovery (fs : List FsNode) (p : List String) :
    p ∈ findSkillDirs fs ↔ qualifiesSpec fs p := by
  unfold findSkillDirs qualifiesSpec isSkillDirAt
  constructor
  · intro hp
    simp only [List.mem_map, List.mem_filter] at hp
    obtain ⟨n, ⟨hnfs, hcond⟩, hpath⟩ := hp
    simp only [decide_eq_true_eq, List.any_eq_true] at hcond
    subst hpath
    exact ⟨⟨n, hnfs, rfl, hcond.1⟩, hcond.2⟩
  · rintro ⟨⟨n, hnfs, hpath, hdir⟩, f, hf, hex⟩
    simp only [List.mem_map, List.mem_filter]
    refine ⟨n, ⟨hnfs, ?_⟩, hpath⟩
    simp only [decide_eq_true_eq, List.any_eq_true]
    exact ⟨hdir, f, hf, by rw [hpath]; exact hex⟩

/-- A repository with a qualifying directory and a qualifying nested
child below it. -/
def fsC9 : List FsNode :=
  [⟨["skills"], true⟩, ⟨["skills", "SKILL.md"], false⟩,
   ⟨["skills", "inner"], true⟩, ⟨["skills", "inner", "tool.json"], false⟩]

/-- Witness for C9 (amended): both the parent and its nested child are
discovered, each via the characterization. -/
theorem claim_C9_witness :
    ["skills"] ∈ findSkillDirs fsC9
    ∧ ["skills", "inner"] ∈ findSkillDirs fsC9 :=
  ⟨(claim_C9_discovery fsC9 ["skills"]).mpr
      ⟨⟨⟨["skills"], true⟩, by decide, rfl, rfl⟩, "SKILL.md", by decide, by decide⟩,
   (claim_C9_discovery fsC9 ["skills", "inner"]).mpr
      ⟨⟨⟨["skills", "inner"], true⟩, by decide, rfl, rfl⟩, "tool.json", by decide, by decide⟩⟩

/-! ## C6: the two-attempt branch-fallback protocol -/

/-- C6: a download makes at most two curl attempts; when attempt 1
fails (including a transfer that wrote a zero-byte file), the partial
file — if one exists — is deleted and attempt 2 retries with the URL
rewritten to the alternate default branch; a successful attempt 2
yields overall success with the `(fallback)` indicator in the message;
and an unsuccessful result occurs only when both attempts failed. -/
theorem claim_C6_branch_fallback (env : DlEnv) (info : RepoInfo) :
    countCurls (downloadRepo env info).events ≤ 2
    ∧ (¬(env.zipExists ∧ env.zipSize > 0) → firstFails env →
        (downloadRepo env info).events
          = [.curl (attempt1Url info)]
            ++ (if fileAfterFirst env then [.unlink] else [])
            ++ [.curl (attempt2Url info)])
    ∧ (¬(env.zipExists ∧ env.zipSize > 0) → firstFails env →
        secondSucceeds env →
        (downloadRepo env info).success = true
        ∧ (downloadRepo env info).message
            = successMsg (fallbackBranch (info.branch.getD "main") ++ " (fallback)"))
    ∧ ((downloadRepo env info).success = false →
        firstFails env ∧ ¬secondSucceeds env) := by
  by_cases hskip : env.zipExists ∧ env.zipSize > 0
  · simp [downloadRepo, hskip, countCurls]
  · cases h0 : env.curl 0 with
    | done s0 =>
      by_cases hs0 : s0 > 0
      · refine ⟨?_, ?_, ?_, ?_⟩ <;>
          simp [downloadRepo, hskip, h0, hs0, countCurls, firstFails,
                secondSucceeds, fileAfterFirst] <;>
          omega
      · have hs0' : s0 = 0 := by omega
        subst hs0'
        cases h1 : env.curl 1 with
        | done s1 =>
          by_cases hs1 : s1 > 0 <;>
            refine ⟨?_, ?_, ?_, ?_⟩ <;>
              simp [downloadRepo, downloadSecond, hskip, h0, h1, hs1,
                    countCurls, firstFails, secondSucceeds, fileAfterFirst]
        | procFail fl1 =>
          refine ⟨?_, ?_, ?_, ?_⟩ <;>
            simp [downloadRepo, downloadSecond, hskip, h0, h1,
                  countCurls, firstFails, secondSucceeds, fileAfterFirst]
        | exc fl1 =>
          refine ⟨?_, ?_, ?_, ?_⟩ <;>
            simp [downloadRepo, downloadSecond, hskip, h0, h1,
                  countCurls, firstFails, secondSucceeds, fileAfterFirst]
    | procFail fl0 =>
      cases h1 : env.curl 1 with
      | done s1 =>
        by_cases hs1 : s1 > 0 <;>
          refine ⟨?_, ?_, ?_, ?_⟩ <;>
            (cases fl0 <;>
              simp [downloadRepo, downloadSecond, hskip, h0, h1, hs1,
                    countCurls, firstFails, secondSucceeds, fileAfterFirst])
      | procFail fl1 =>
        refine ⟨?_, ?_, ?_, ?_⟩ <;>
          (cases fl0 <;>
            simp [downloadRepo, downloadSecond, hskip, h0, h1,
                  countCurls, firstFails, secondSucceeds, fileAfterFirst])
      | exc fl1 =>
        refine ⟨?_, ?_, ?_, ?_⟩ <;>
          (cases fl0 <;>
            simp [downloadRepo, downloadSecond, hskip, h0, h1,
                  countCurls, firstFails, secondSucceeds, fileAfterFirst])
    | exc fl0 =>
      cases h1 : env.curl 1 with
      | done s1 =>
        by_cases hs1 : s1 > 0 <;>
          refine ⟨?_, ?_, ?_, ?_⟩ <;>
            (cases fl0 <;>
              simp [downloadRepo, downloadSecond, hskip, h0, h1, hs1,
                    countCurls, firstFails, secondSucceeds, fileAfterFirst])
      | procFail fl1 =>
        refine ⟨?_, ?_, ?_, ?_⟩ <;>
          (cases fl0 <;>
            simp [downloadRepo, downloadSecond, hskip, h0, h1,
                  countCurls, firstFails, secondSucceeds, fileAfterFirst])
      | exc fl1 =>
        refine ⟨?_, ?_, ?_, ?_⟩ <;>
          (cases fl0 <;>
            simp [downloadRepo, downloadSecond, hskip, h0, h1,
                  countCurls, firstFails, secondSucceeds, fileAfterFirst])

/-- A download task on branch `main` with an explicit first URL. -/
def infoC6 : RepoInfo :=
  { repo_id := "owner__proj"
    repo := "owner/proj"
    branch := some "main"
    download_url := some "https://github.com/owner/proj/archive/main.zip"
    id_prefix := none }

/-- Attempt 0 exits non-zero leaving a partial file; attempt 1 delivers
five bytes. -/
def envC6 : DlEnv :=
  { zipExists := false
    zipSize := 0
    curl := fun k => if k = 0 then .procFail true else .done 5 }

/-- Witness for C6: a failing `main` attempt followed by a successful
`master` attempt — the partial file is unlinked, the second URL targets
the `master` archive, the overall result is success and the message
carries the `(fallback)` indicator. -/
theorem claim_C6_witness :
    (downloadRepo envC6 infoC6).events
      = [.curl "https://github.com/owner/proj/archive/main.zip", .unlink,
         .curl "https://github.com/owner/proj/archive/master.zip"]
    ∧ (downloadRepo envC6 infoC6).success = true
    ∧ (downloadRepo envC6 infoC6).message = "Downloaded [master (fallback)]" := by
  have h := claim_C6_branch_fallback envC6 infoC6
  have h2 := h.2.1 (by decide) (by decide)
  have h3 := h.2.2.1 (by decide) (by decide) (by decide)
  exact ⟨by rw [h2]; decide, h3.1, by rw [h3.2]; decide⟩

end AgentSkillsScanner
